import Mathlib

/-! Shallow embedding of the transport adapters of src/backdoor.rs.

External collaborator libraries (tokio-tungstenite, quinn, webrtc, web-sys)
are modelled by environment records whose fields give the results of the
corresponding library calls; the adapter bodies are translated clause by
clause from the Rust source.  Stateful streams are modelled by explicit
state passing, fallible calls by Except, and every attempted external I/O
call is recorded in an action trace, so that "no I/O was attempted" is an
observable fact of the model. -/

/-- Result of url::Url::parse, the parsed form of an address string. -/
abbrev Url := String

/-- Result of parsing a std::net::SocketAddr. -/
abbrev SockAddr := String

/-- Identity of a quinn::Endpoint. -/
abbrev Endpoint := Nat

/-- Identity of a tokio TcpListener. -/
abbrev Listener := Nat

/-- Identity of an accepted tokio TcpStream. -/
abbrev TcpStream := Nat

/-- Identity of a webrtc RTCPeerConnection. -/
abbrev RTCPeerConnection := Nat

/-- Identity of a web_sys WebTransport object. -/
abbrev WebTransport := Nat

/-- Equality of Except values is decidable when it is so componentwise. -/
instance {ε α : Type} [DecidableEq ε] [DecidableEq α] : DecidableEq (Except ε α) := fun a b =>
  match a, b with
  | .error e1, .error e2 =>
    if h : e1 = e2 then .isTrue (by subst h; rfl)
    else .isFalse (by intro hc; injection hc; contradiction)
  | .error _, .ok _ => .isFalse (by intro hc; injection hc)
  | .ok _, .error _ => .isFalse (by intro hc; injection hc)
  | .ok v1, .ok v2 =>
    if h : v1 = v2 then .isTrue (by subst h; rfl)
    else .isFalse (by intro hc; injection hc; contradiction)

/-- A tungstenite protocol Message, as produced and consumed by the
WebSocket adapter. -/
inductive WsMessage
  | text (data : List Nat)
  | binary (data : List Nat)
  | ping (data : List Nat)
  | pong (data : List Nat)
  | close (reason : List Nat)
  deriving DecidableEq, Repr

/-- Message::into_data from tungstenite: the payload bytes of any variant. -/
def WsMessage.into_data : WsMessage → List Nat
  | .text d => d
  | .binary d => d
  | .ping d => d
  | .pong d => d
  | .close r => r

/-- Errors the adapters return.  The Rust code erases them into a boxed
dyn Error, but each propagated value keeps its provenance: parse errors
from address parsing, io errors from collaborator calls, and the literal
unsupported-operation strings returned by the listen stubs. -/
inductive TransportError
  | parse (msg : String)
  | io (msg : String)
  | unsupported (msg : String)
  deriving DecidableEq, Repr

/-- One attempted external I/O call, recorded in the order the adapter
body makes them. -/
inductive IOAct
  | wsConnect (url : Url)
  | bindTcp (addr : String)
  | acceptTcp (l : Listener)
  | wsAccept (s : TcpStream)
  | mkClientEndpoint
  | mkServerEndpoint (a : SockAddr)
  | newPeerConnection
  | createDataChannel (pc : RTCPeerConnection)
  | newWebTransport (addr : String)
  deriving DecidableEq, Repr

/-- State of one tokio_tungstenite WebSocketStream: the items its next()
calls will yield (none once exhausted), the messages already written to
the wire by its send() calls, and whether its next send() fails (a broken
or closed underlying connection).  The id field is the identity of the one
stream object behind the Arc-RwLock. -/
structure WsStream where
  id : Nat
  incoming : List (Except String WsMessage)
  outgoing : List WsMessage
  sendErr : Option String
  deriving DecidableEq, Repr

/-- socket.send(msg) on a WebSocketStream: fails when the connection is
broken or closed, otherwise appends the message to the wire. -/
def wsStreamSend (s : WsStream) (m : WsMessage) : Except String WsStream :=
  match s.sendErr with
  | some e => .error e
  | none => .ok { s with outgoing := s.outgoing ++ [m] }

/-- socket.next() on a WebSocketStream: yields the next incoming item,
or none when the stream is exhausted. -/
def wsStreamNext (s : WsStream) : Option (Except String WsMessage) × WsStream :=
  match s.incoming with
  | [] => (none, s)
  | item :: rest => (some item, { s with incoming := rest })

/-- WebSocketClient (src/backdoor.rs lines 143-145): holds the one shared
socket behind Arc-RwLock. -/
structure WebSocketClient where
  socket : WsStream
  deriving DecidableEq, Repr

/-- Results of the external calls WebSocketClient::connect and ::listen
make: url::Url::parse, connect_async, TcpListener::bind, listener.accept,
accept_async. -/
structure WsEnv where
  parseUrl : String → Except String Url
  connectAsync : Url → Except String WsStream
  bindTcp : String → Except String Listener
  acceptTcp : Listener → Except String TcpStream
  acceptAsync : TcpStream → Except String WsStream

/-- WebSocketClient::connect (lines 149-156): parse the url, then
connect_async; each failure propagates. -/
def WebSocketClient.connect (env : WsEnv) (addr : String) :
    Except TransportError WebSocketClient × List IOAct :=
  match env.parseUrl addr with
  | .error e => (.error (.parse e), [])
  | .ok url =>
    match env.connectAsync url with
    | .error e => (.error (.io e), [.wsConnect url])
    | .ok ws => (.ok ⟨ws⟩, [.wsConnect url])

/-- WebSocketClient::send (lines 158-163): take the write lock on the
socket and send one Binary message through it. -/
def WebSocketClient.send (c : WebSocketClient) (data : List Nat) :
    Except TransportError Unit × WebSocketClient :=
  match wsStreamSend c.socket (.binary data) with
  | .error e => (.error (.io e), c)
  | .ok s2 => (.ok (), ⟨s2⟩)

/-- WebSocketClient::receive (lines 165-172): take the write lock on the
socket; if the next item is Some(Ok(msg)) return its data, and in every
other case (stream exhausted, or an Err item) return the empty vector. -/
def WebSocketClient.receive (c : WebSocketClient) :
    Except TransportError (List Nat) × WebSocketClient :=
  let r := wsStreamNext c.socket
  match r.1 with
  | some (.ok msg) => (.ok msg.into_data, ⟨r.2⟩)
  | _ => (.ok [], ⟨r.2⟩)

/-- WebSocketClient::listen (lines 174-183): bind a TCP listener, accept
exactly one peer, perform the WebSocket handshake on it. -/
def WebSocketClient.listen (env : WsEnv) (addr : String) :
    Except TransportError WebSocketClient × List IOAct :=
  match env.bindTcp addr with
  | .error e => (.error (.io e), [.bindTcp addr])
  | .ok l =>
    match env.acceptTcp l with
    | .error e => (.error (.io e), [.bindTcp addr, .acceptTcp l])
    | .ok st =>
      match env.acceptAsync st with
      | .error e => (.error (.io e), [.bindTcp addr, .acceptTcp l, .wsAccept st])
      | .ok ws => (.ok ⟨ws⟩, [.bindTcp addr, .acceptTcp l, .wsAccept st])

/-- Wire delivery between two connected WebSocket endpoints: the peer's
next() calls yield, in order and without transport failure, exactly the
messages this side has sent. -/
def deliver (src dst : WsStream) : WsStream :=
  { dst with incoming := src.outgoing.map Except.ok }

/-- QuinnClient (lines 58-61): holds only a quinn Endpoint. -/
structure QuinnClient where
  endpoint : Endpoint
  deriving DecidableEq, Repr

/-- Results of the external calls QuinnClient::connect and ::listen make:
SocketAddr parsing, Endpoint::client, Endpoint::server. -/
structure QuinnEnv where
  parseSockAddr : String → Except String SockAddr
  endpointClient : Except String Endpoint
  endpointServer : SockAddr → Except String Endpoint

/-- QuinnClient::connect (lines 66-71): parse the address, create a local
client endpoint; the parsed address is never used again and no outbound
connection is opened. -/
def QuinnClient.connect (env : QuinnEnv) (addr : String) :
    Except TransportError QuinnClient × List IOAct :=
  match env.parseSockAddr addr with
  | .error e => (.error (.parse e), [])
  | .ok _ =>
    match env.endpointClient with
    | .error e => (.error (.io e), [.mkClientEndpoint])
    | .ok ep => (.ok ⟨ep⟩, [.mkClientEndpoint])

/-- QuinnClient::send (lines 73-76): a stub, returns Ok with no I/O. -/
def QuinnClient.send (_c : QuinnClient) (_data : List Nat) :
    Except TransportError Unit × List IOAct := (.ok (), [])

/-- QuinnClient::receive (lines 78-81): a stub, returns Ok(vec![]) with
no I/O. -/
def QuinnClient.receive (_c : QuinnClient) :
    Except TransportError (List Nat) × List IOAct := (.ok [], [])

/-- QuinnClient::listen (lines 83-89): parse the address, create a server
endpoint bound to it. -/
def QuinnClient.listen (env : QuinnEnv) (addr : String) :
    Except TransportError QuinnClient × List IOAct :=
  match env.parseSockAddr addr with
  | .error e => (.error (.parse e), [])
  | .ok sa =>
    match env.endpointServer sa with
    | .error e => (.error (.io e), [.mkServerEndpoint sa])
    | .ok ep => (.ok ⟨ep⟩, [.mkServerEndpoint sa])

/-- A webrtc DataChannelMessage as the source matches it: Binary carries
bytes, everything else falls to the wildcard arm. -/
inductive DataChannelMessage
  | binary (data : List Nat)
  | text (data : String)
  deriving DecidableEq, Repr

/-- State of one webrtc DataChannel: the incoming items its recv() calls
yield, the messages already sent through it, and whether its next send
fails. -/
structure DataChannel where
  incoming : List (Except String DataChannelMessage)
  outgoing : List DataChannelMessage
  sendErr : Option String
  deriving DecidableEq, Repr

/-- WebRTCClient (lines 93-96): a peer connection and an optional data
channel. -/
structure WebRTCClient where
  peer_connection : RTCPeerConnection
  data_channel : Option DataChannel
  deriving DecidableEq, Repr

/-- Results of the external calls WebRTCClient::connect makes:
api.new_peer_connection and create_data_channel. -/
structure WebRTCEnv where
  newPeerConnection : Except String RTCPeerConnection
  createDataChannel : RTCPeerConnection → Except String DataChannel

/-- WebRTCClient::connect (lines 100-113): ignores the address, creates a
peer connection and a data channel; no signaling exchange takes place. -/
def WebRTCClient.connect (env : WebRTCEnv) (_addr : String) :
    Except TransportError WebRTCClient × List IOAct :=
  match env.newPeerConnection with
  | .error e => (.error (.io e), [.newPeerConnection])
  | .ok pc =>
    match env.createDataChannel pc with
    | .error e => (.error (.io e), [.newPeerConnection, .createDataChannel pc])
    | .ok dc => (.ok ⟨pc, some dc⟩, [.newPeerConnection, .createDataChannel pc])

/-- WebRTCClient::send (lines 115-121): when a channel is held, send one
Binary message through it, propagating its failure; with no channel held,
return Ok without sending anything. -/
def WebRTCClient.send (c : WebRTCClient) (data : List Nat) :
    Except TransportError Unit × WebRTCClient :=
  match c.data_channel with
  | none => (.ok (), c)
  | some ch =>
    match ch.sendErr with
    | some e => (.error (.io e), c)
    | none =>
      (.ok (), ⟨c.peer_connection,
        some { ch with outgoing := ch.outgoing ++ [.binary data] }⟩)

/-- WebRTCClient::receive (lines 123-134): with a channel, recv one
message — propagate its error, return its bytes when Binary, and the empty
vector for any other variant; with no channel held, return the empty
vector.  recv() on a channel with no pending item suspends with no result,
modelled as none. -/
def WebRTCClient.receive (c : WebRTCClient) :
    Option (Except TransportError (List Nat) × WebRTCClient) :=
  match c.data_channel with
  | none => some (.ok [], c)
  | some ch =>
    match ch.incoming with
    | [] => none
    | item :: rest =>
      let c2 : WebRTCClient := ⟨c.peer_connection, some { ch with incoming := rest }⟩
      match item with
      | .error e => some (.error (.io e), c2)
      | .ok (.binary d) => some (.ok d, c2)
      | .ok (.text _) => some (.ok [], c2)

/-- WebRTCClient::listen (lines 136-139): always the literal
unsupported-operation error, for every address. -/
def WebRTCClient.listen (_addr : String) : Except TransportError WebRTCClient :=
  .error (.unsupported "Listening is not supported for WebRTC")

/-- WebTransportClient (lines 29-31): holds the browser transport object. -/
structure WebTransportClient where
  transport : WebTransport
  deriving DecidableEq, Repr

/-- Result of the external call WebTransportClient::connect makes:
WebTransport::new on the address string. -/
structure WebTransportEnv where
  newWebTransport : String → Except String WebTransport

/-- WebTransportClient::connect (lines 36-39): construct the browser
WebTransport object from the address. -/
def WebTransportClient.connect (env : WebTransportEnv) (addr : String) :
    Except TransportError WebTransportClient × List IOAct :=
  match env.newWebTransport addr with
  | .error e => (.error (.io e), [.newWebTransport addr])
  | .ok t => (.ok ⟨t⟩, [.newWebTransport addr])

/-- WebTransportClient::send (lines 41-44): a stub, returns Ok with no
I/O. -/
def WebTransportClient.send (_c : WebTransportClient) (_data : List Nat) :
    Except TransportError Unit × List IOAct := (.ok (), [])

/-- WebTransportClient::receive (lines 46-49): a stub, returns
Ok(vec![]) with no I/O. -/
def WebTransportClient.receive (_c : WebTransportClient) :
    Except TransportError (List Nat) × List IOAct := (.ok [], [])

/-- WebTransportClient::listen (lines 51-54): always the literal
unsupported-operation error, for every address. -/
def WebTransportClient.listen (_addr : String) : Except TransportError WebTransportClient :=
  .error (.unsupported "Listening is not supported for WebTransport")

/-! Concurrency model of WebSocketClient::send (lines 158-163).

Two tasks (tagged by a Bool) each run one send call on the same instance.
A send call acquires the write half of the RwLock guarding the shared
socket, performs its one I/O call — which puts the payload bytes on the
underlying wire byte by byte — and releases the lock when the guard is
dropped.  An execution is any interleaving of the two tasks' event lists
that respects the lock: acquisition only succeeds while the lock is free,
and writes and releases only while the acquiring task holds it. -/

/-- One atomic event of a task: acquire the socket write lock, put one
byte of its payload on the wire, or release the lock. -/
inductive Ev
  | acq (t : Bool)
  | write (t : Bool) (b : Nat)
  | rel (t : Bool)
  deriving DecidableEq, Repr

/-- Lock semantics: the state is the holder of the write lock (none when
free); an event that the lock discipline forbids has no successor state. -/
def lockStep : Option Bool → Ev → Option (Option Bool)
  | none, .acq t => some (some t)
  | some _, .acq _ => none
  | some l, .write t _ => if t = l then some (some l) else none
  | none, .write _ _ => none
  | some l, .rel t => if t = l then some none else none
  | none, .rel _ => none

/-- Run a whole event trace through the lock semantics. -/
def lockRun : Option Bool → List Ev → Option (Option Bool)
  | s, [] => some s
  | s, e :: es =>
    match lockStep s e with
    | none => none
    | some s2 => lockRun s2 es

/-- The event list of one send call by task t with payload p: acquire the
write lock, emit the payload inside the critical section, release. -/
def sendProg (t : Bool) (p : List Nat) : List Ev :=
  Ev.acq t :: (p.map (Ev.write t) ++ [Ev.rel t])

/-- zs is an interleaving of xs and ys (each kept in order). -/
def isMerge : List Ev → List Ev → List Ev → Bool
  | xs, ys, [] => xs.isEmpty && ys.isEmpty
  | xs, ys, z :: zs =>
    (match xs with
     | x :: xs2 => x == z && isMerge xs2 ys zs
     | [] => false)
    || (match ys with
        | y :: ys2 => y == z && isMerge xs ys2 zs
        | [] => false)

/-- The bytes a trace puts on the wire, each tagged with the task that
wrote it, in wire order. -/
def wireWrites (zs : List Ev) : List (Bool × Nat) :=
  zs.filterMap fun e =>
    match e with
    | .write t b => some (t, b)
    | _ => none

/-- A concrete Quinn environment: two well-formed addresses parse, every
other string fails to parse, and local endpoint creation succeeds. -/
def quinnTestEnv : QuinnEnv :=
  ⟨fun s =>
    if s = "127.0.0.1:4433" then .ok "127.0.0.1:4433"
    else if s = "9.9.9.9:1" then .ok "9.9.9.9:1"
    else .error "invalid socket address",
   .ok 0,
   fun _ => .ok 1⟩

/-- A concrete WebRTC environment in which peer-connection and
data-channel creation both succeed. -/
def webrtcTestEnv : WebRTCEnv :=
  ⟨.ok 0, fun _ => .ok ⟨[], [], none⟩⟩

/-- A concrete WebSocket environment: one well-formed url parses, every
other string fails to parse, and the handshake succeeds. -/
def wsTestEnv : WsEnv :=
  ⟨fun s => if s = "ws://127.0.0.1:8080" then .ok "ws://127.0.0.1:8080"
            else .error "relative URL without a base",
   fun _ => .ok ⟨5, [], [], none⟩,
   fun _ => .ok 6,
   fun _ => .ok 7,
   fun _ => .ok ⟨8, [], [], none⟩⟩

/-- C3: for every input address string, listen on the data-channel
(WebRTC) adapter and on the browser datagram (WebTransport) adapter fails
with the unsupported-operation error and never returns an instance. -/
theorem listen_unsupported_on_webrtc_and_webtransport (addr : String) :
    WebRTCClient.listen addr =
      .error (.unsupported "Listening is not supported for WebRTC") ∧
    WebTransportClient.listen addr =
      .error (.unsupported "Listening is not supported for WebTransport") :=
  ⟨rfl, rfl⟩

/-- C9: for every address string that parses as a socket address, connect
on the QUIC adapter succeeds whenever local endpoint creation does, its
only attempted I/O is the address-less creation of a local client
endpoint, and the returned instance is independent of the address
argument. -/
theorem quinn_connect_no_io_toward_address (env : QuinnEnv) (addr addr2 : String)
    (sa sa2 : SockAddr) (ep : Endpoint)
    (h1 : env.parseSockAddr addr = .ok sa)
    (h2 : env.endpointClient = .ok ep)
    (h3 : env.parseSockAddr addr2 = .ok sa2) :
    QuinnClient.connect env addr = (.ok ⟨ep⟩, [.mkClientEndpoint]) ∧
    QuinnClient.connect env addr = QuinnClient.connect env addr2 := by
  constructor
  · simp [QuinnClient.connect, h1, h2]
  · simp [QuinnClient.connect, h1, h2, h3]

/-- Spot check of quinn_connect_no_io_toward_address on the concrete
environment and the two addresses it parses. -/
theorem quinn_connect_no_io_toward_address_spot :
    QuinnClient.connect quinnTestEnv "127.0.0.1:4433" = (.ok ⟨0⟩, [.mkClientEndpoint]) ∧
    QuinnClient.connect quinnTestEnv "127.0.0.1:4433" =
      QuinnClient.connect quinnTestEnv "9.9.9.9:1" :=
  quinn_connect_no_io_toward_address quinnTestEnv "127.0.0.1:4433" "9.9.9.9:1"
    "127.0.0.1:4433" "9.9.9.9:1" 0 (by decide) rfl (by decide)

/-- C10: on the data-channel adapter, receive returns the empty byte
vector both when the received message is not binary and when the instance
holds no data channel, the same result as receiving a genuine empty binary
message — the three outcomes are indistinguishable. -/
theorem webrtc_receive_empty_indistinguishable (pc : RTCPeerConnection)
    (ch : DataChannel) (s : String) (rest : List (Except String DataChannelMessage)) :
    WebRTCClient.receive ⟨pc, none⟩ = some (.ok [], ⟨pc, none⟩) ∧
    (ch.incoming = .ok (.text s) :: rest →
      WebRTCClient.receive ⟨pc, some ch⟩ =
        some (.ok [], ⟨pc, some { ch with incoming := rest }⟩)) ∧
    (ch.incoming = .ok (.binary []) :: rest →
      WebRTCClient.receive ⟨pc, some ch⟩ =
        some (.ok [], ⟨pc, some { ch with incoming := rest }⟩)) := by
  refine ⟨rfl, ?_, ?_⟩ <;> intro h <;> simp [WebRTCClient.receive, h]

/-- Spot check of webrtc_receive_empty_indistinguishable: the no-channel
case, a text message, and an empty binary message all yield Ok-empty. -/
theorem webrtc_receive_empty_indistinguishable_spot :
    WebRTCClient.receive ⟨0, none⟩ = some (.ok [], ⟨0, none⟩) ∧
    WebRTCClient.receive ⟨0, some ⟨[.ok (.text "hi")], [], none⟩⟩ =
      some (.ok [], ⟨0, some ⟨[], [], none⟩⟩) ∧
    WebRTCClient.receive ⟨0, some ⟨[.ok (.binary [])], [], none⟩⟩ =
      some (.ok [], ⟨0, some ⟨[], [], none⟩⟩) := by
  refine ⟨(webrtc_receive_empty_indistinguishable 0 ⟨[], [], none⟩ "hi" []).1, ?_, ?_⟩
  · exact (webrtc_receive_empty_indistinguishable 0 ⟨[.ok (.text "hi")], [], none⟩ "hi" []).2.1 rfl
  · exact (webrtc_receive_empty_indistinguishable 0 ⟨[.ok (.binary [])], [], none⟩ "hi" []).2.2 rfl

/-- C1 counterexample: on a data-channel instance holding no channel, send
of a non-empty message transmits nothing — the client is unchanged and no
channel exists to carry the bytes — yet it returns success instead of a
SendError. -/
theorem webrtc_send_silent_drop :
    WebRTCClient.send ⟨0, none⟩ [1, 2, 3] = (.ok (), ⟨0, none⟩) ∧
    (WebRTCClient.mk 0 none).data_channel = none := ⟨rfl, rfl⟩

/-- C1 amended: the stream adapter's send never silently drops data — it
returns success exactly when the whole message was appended to the wire
and propagates the broken-connection error otherwise — and the
data-channel adapter's send behaves the same whenever a channel is held;
with no held channel (and on the stub QUIC and WebTransport adapters) send
returns success without transmitting. -/
theorem send_no_silent_drop_amended (c : WebSocketClient) (w : WebRTCClient)
    (ch : DataChannel) (data : List Nat) :
    (c.socket.sendErr = none →
      WebSocketClient.send c data =
        (.ok (), ⟨{ c.socket with outgoing := c.socket.outgoing ++ [.binary data] }⟩)) ∧
    (∀ e, c.socket.sendErr = some e →
      WebSocketClient.send c data = (.error (.io e), c)) ∧
    (w.data_channel = some ch → ch.sendErr = none →
      WebRTCClient.send w data =
        (.ok (), ⟨w.peer_connection, some { ch with outgoing := ch.outgoing ++ [.binary data] }⟩)) ∧
    (∀ e, w.data_channel = some ch → ch.sendErr = some e →
      WebRTCClient.send w data = (.error (.io e), w)) := by
  refine ⟨?_, ?_, ?_, ?_⟩
  · intro h
    simp [WebSocketClient.send, wsStreamSend, h]
  · intro e h
    simp [WebSocketClient.send, wsStreamSend, h]
  · intro h1 h2
    simp [WebRTCClient.send, h1, h2]
  · intro e h1 h2
    simp [WebRTCClient.send, h1, h2]

/-- Spot check of send_no_silent_drop_amended: a healthy stream send puts
the message on the wire, a broken stream send fails, and a held-channel
send with a broken channel fails. -/
theorem send_no_silent_drop_amended_spot :
    WebSocketClient.send ⟨⟨3, [], [], none⟩⟩ [10, 20] =
      (.ok (), ⟨⟨3, [], [.binary [10, 20]], none⟩⟩) ∧
    WebSocketClient.send ⟨⟨3, [], [], some "broken pipe"⟩⟩ [10, 20] =
      (.error (.io "broken pipe"), ⟨⟨3, [], [], some "broken pipe"⟩⟩) ∧
    WebRTCClient.send ⟨0, some ⟨[], [], some "closed"⟩⟩ [10, 20] =
      (.error (.io "closed"), ⟨0, some ⟨[], [], some "closed"⟩⟩) := by
  refine ⟨?_, ?_, ?_⟩
  · exact (send_no_silent_drop_amended ⟨⟨3, [], [], none⟩⟩ ⟨0, none⟩
      ⟨[], [], none⟩ [10, 20]).1 rfl
  · exact (send_no_silent_drop_amended ⟨⟨3, [], [], some "broken pipe"⟩⟩ ⟨0, none⟩
      ⟨[], [], none⟩ [10, 20]).2.1 "broken pipe" rfl
  · exact (send_no_silent_drop_amended ⟨⟨3, [], [], none⟩⟩ ⟨0, some ⟨[], [], some "closed"⟩⟩
      ⟨[], [], some "closed"⟩ [10, 20]).2.2.2 "closed" rfl rfl

/-- C2 counterexample: a stream whose next item is an underlying I/O
failure makes receive return Ok-empty, an observable identical to the
clean no-message case on an exhausted stream — the failure is swallowed,
not propagated as a distinguishable error. -/
theorem websocket_receive_swallows_error :
    WebSocketClient.receive ⟨⟨0, [.error "connection reset by peer"], [], none⟩⟩ =
      (.ok [], ⟨⟨0, [], [], none⟩⟩) ∧
    WebSocketClient.receive ⟨⟨0, [], [], none⟩⟩ = (.ok [], ⟨⟨0, [], [], none⟩⟩) :=
  ⟨rfl, rfl⟩

/-- C2 amended: the stream adapter's receive never returns an error at
all: it returns the message bytes when the next stream item is a
successfully received message, and Ok-empty in every other case — both on
the exhausted stream (consistently, the state being unchanged) and on an
underlying I/O failure, which is therefore swallowed into the same empty
result as the documented no-message case. -/
theorem websocket_receive_empty_policy_amended (c : WebSocketClient) :
    (∃ v, (WebSocketClient.receive c).1 = .ok v) ∧
    (c.socket.incoming = [] → WebSocketClient.receive c = (.ok [], c)) ∧
    (∀ e rest, c.socket.incoming = .error e :: rest →
      WebSocketClient.receive c = (.ok [], ⟨{ c.socket with incoming := rest }⟩)) ∧
    (∀ m rest, c.socket.incoming = .ok m :: rest →
      WebSocketClient.receive c = (.ok m.into_data, ⟨{ c.socket with incoming := rest }⟩)) := by
  refine ⟨?_, ?_, ?_, ?_⟩
  · rcases h : c.socket.incoming with _ | ⟨_ | _, _⟩ <;>
      simp [WebSocketClient.receive, wsStreamNext, h]
  · intro h
    simp [WebSocketClient.receive, wsStreamNext, h]
  · intro e rest h
    simp [WebSocketClient.receive, wsStreamNext, h]
  · intro m rest h
    simp [WebSocketClient.receive, wsStreamNext, h]

/-- Spot check of websocket_receive_empty_policy_amended: the exhausted
stream, the swallowed-failure case, and a received binary message. -/
theorem websocket_receive_empty_policy_amended_spot :
    WebSocketClient.receive ⟨⟨1, [], [], none⟩⟩ = (.ok [], ⟨⟨1, [], [], none⟩⟩) ∧
    WebSocketClient.receive ⟨⟨1, [.error "reset"], [], none⟩⟩ =
      (.ok [], ⟨⟨1, [], [], none⟩⟩) ∧
    WebSocketClient.receive ⟨⟨1, [.ok (.binary [9])], [], none⟩⟩ =
      (.ok [9], ⟨⟨1, [], [], none⟩⟩) := by
  refine ⟨?_, ?_, ?_⟩
  · exact (websocket_receive_empty_policy_amended ⟨⟨1, [], [], none⟩⟩).2.1 rfl
  · exact (websocket_receive_empty_policy_amended ⟨⟨1, [.error "reset"], [], none⟩⟩).2.2.1
      "reset" [] rfl
  · exact (websocket_receive_empty_policy_amended ⟨⟨1, [.ok (.binary [9])], [], none⟩⟩).2.2.2
      (.binary [9]) [] rfl

/-- C4 counterexample: QUIC connect on a valid address returns a usable
instance although its only attempted I/O is the address-less creation of a
local endpoint; the identical instance comes back for a different target
address, so no outbound connection to the given address was established
before return. -/
theorem quinn_connect_returns_unconnected_instance :
    QuinnClient.connect quinnTestEnv "127.0.0.1:4433" = (.ok ⟨0⟩, [.mkClientEndpoint]) ∧
    QuinnClient.connect quinnTestEnv "9.9.9.9:1" = (.ok ⟨0⟩, [.mkClientEndpoint]) := by
  constructor <;> decide

/-- C4 amended: connect on the stream adapter yields either an instance
holding exactly the stream of the completed handshake, a parse error
before any I/O, or the propagated handshake failure; connect on the QUIC
adapter merely parses the address and creates a fresh local endpoint, so
for any two parsing addresses it returns the same, unconnected instance. -/
theorem connect_connected_or_error_amended (env : WsEnv) (qenv : QuinnEnv)
    (addr addr2 : String) :
    (∀ c acts, WebSocketClient.connect env addr = (.ok c, acts) →
      ∃ url, env.parseUrl addr = .ok url ∧ env.connectAsync url = .ok c.socket ∧
        acts = [.wsConnect url]) ∧
    (∀ e, env.parseUrl addr = .error e →
      WebSocketClient.connect env addr = (.error (.parse e), [])) ∧
    (∀ url e, env.parseUrl addr = .ok url → env.connectAsync url = .error e →
      WebSocketClient.connect env addr = (.error (.io e), [.wsConnect url])) ∧
    (∀ sa sa2, qenv.parseSockAddr addr = .ok sa → qenv.parseSockAddr addr2 = .ok sa2 →
      QuinnClient.connect qenv addr = QuinnClient.connect qenv addr2) := by
  refine ⟨?_, ?_, ?_, ?_⟩
  · intro c acts h
    rcases hp : env.parseUrl addr with e | url
    · simp [WebSocketClient.connect, hp] at h
    · rcases hc : env.connectAsync url with e | ws
      · simp [WebSocketClient.connect, hp, hc] at h
      · refine ⟨url, rfl, ?_⟩
        simp [WebSocketClient.connect, hp, hc] at h
        simp [hc, ← h.1, h.2]
  · intro e h
    simp [WebSocketClient.connect, h]
  · intro url e h1 h2
    simp [WebSocketClient.connect, h1, h2]
  · intro sa sa2 h1 h2
    simp [QuinnClient.connect, h1, h2]

/-- Spot check of connect_connected_or_error_amended on the concrete
environments: a successful stream connect holds the handshake stream, a
malformed url fails with a parse error and no I/O, and QUIC connect gives
the same instance for two different parsed addresses. -/
theorem connect_connected_or_error_amended_spot :
    (∃ url, wsTestEnv.parseUrl "ws://127.0.0.1:8080" = .ok url ∧
      wsTestEnv.connectAsync url =
        .ok (⟨5, [], [], none⟩ : WsStream) ∧
      [IOAct.wsConnect "ws://127.0.0.1:8080"] = [.wsConnect url]) ∧
    WebSocketClient.connect wsTestEnv "not a url" =
      (.error (.parse "relative URL without a base"), []) ∧
    QuinnClient.connect quinnTestEnv "127.0.0.1:4433" =
      QuinnClient.connect quinnTestEnv "9.9.9.9:1" := by
  refine ⟨?_, ?_, ?_⟩
  · exact (connect_connected_or_error_amended wsTestEnv quinnTestEnv
      "ws://127.0.0.1:8080" "9.9.9.9:1").1 ⟨⟨5, [], [], none⟩⟩
      [.wsConnect "ws://127.0.0.1:8080"] (by decide)
  · exact (connect_connected_or_error_amended wsTestEnv quinnTestEnv
      "not a url" "9.9.9.9:1").2.1 "relative URL without a base" (by decide)
  · exact (connect_connected_or_error_amended wsTestEnv quinnTestEnv
      "127.0.0.1:4433" "9.9.9.9:1").2.2.2 "127.0.0.1:4433" "9.9.9.9:1"
      (by decide) (by decide)

/-- C5 counterexample: the data-channel adapter never parses its address —
connect on a plainly malformed address string succeeds and performs its
peer-connection I/O instead of failing fast with a parse error. -/
theorem webrtc_connect_ignores_malformed_address :
    WebRTCClient.connect webrtcTestEnv "definitely not an address" =
      (.ok ⟨0, some ⟨[], [], none⟩⟩, [.newPeerConnection, .createDataChannel 0]) := by
  decide

/-- C5 amended: on the adapters that do parse — stream connect, QUIC
connect and QUIC listen — a malformed address fails with the propagated
parse error and an empty action trace, so no connection or bind is
attempted; the data-channel adapter ignores its address argument, and the
stream adapter's listen hands the raw string to the TCP bind. -/
theorem parse_failure_before_io_amended (wenv : WsEnv) (qenv : QuinnEnv)
    (addr : String) (e : String) :
    (wenv.parseUrl addr = .error e →
      WebSocketClient.connect wenv addr = (.error (.parse e), [])) ∧
    (qenv.parseSockAddr addr = .error e →
      QuinnClient.connect qenv addr = (.error (.parse e), [])) ∧
    (qenv.parseSockAddr addr = .error e →
      QuinnClient.listen qenv addr = (.error (.parse e), [])) := by
  refine ⟨?_, ?_, ?_⟩ <;> intro h
  · simp [WebSocketClient.connect, h]
  · simp [QuinnClient.connect, h]
  · simp [QuinnClient.listen, h]

/-- Spot check of parse_failure_before_io_amended on the concrete
environments and a malformed address. -/
theorem parse_failure_before_io_amended_spot :
    WebSocketClient.connect wsTestEnv "bogus" =
      (.error (.parse "relative URL without a base"), []) ∧
    QuinnClient.connect quinnTestEnv "bogus" =
      (.error (.parse "invalid socket address"), []) ∧
    QuinnClient.listen quinnTestEnv "bogus" =
      (.error (.parse "invalid socket address"), []) := by
  refine ⟨?_, ?_, ?_⟩
  · exact (parse_failure_before_io_amended wsTestEnv quinnTestEnv "bogus"
      "relative URL without a base").1 (by decide)
  · exact (parse_failure_before_io_amended wsTestEnv quinnTestEnv "bogus"
      "invalid socket address").2.1 (by decide)
  · exact (parse_failure_before_io_amended wsTestEnv quinnTestEnv "bogus"
      "invalid socket address").2.2 (by decide)

/-- C6 counterexample: a QUIC-adapter pair loses data — send of a
one-byte message reports success while performing no I/O, and the peer's
receive yields the empty sequence, not the sent byte. -/
theorem quinn_roundtrip_loses_data :
    QuinnClient.send ⟨0⟩ [42] = (.ok (), []) ∧
    QuinnClient.receive ⟨1⟩ = (.ok [], []) ∧
    ([42] : List Nat) ≠ [] :=
  ⟨rfl, rfl, by decide⟩

/-- C6 amended: on the stream adapter, a message sent by one side of a
connected pair and delivered by the wire is received by the peer
byte-for-byte identical, for every payload length including zero; the
stub QUIC and WebTransport adapters transmit nothing, their send reporting
success and their receive yielding the empty sequence. -/
theorem roundtrip_amended (sA sB : WsStream) (data : List Nat)
    (herr : sA.sendErr = none) (hout : sA.outgoing = []) :
    (∃ sA2, WebSocketClient.send ⟨sA⟩ data = (.ok (), ⟨sA2⟩) ∧
      (WebSocketClient.receive ⟨deliver sA2 sB⟩).1 = .ok data) ∧
    (∀ (q r : QuinnClient) (d : List Nat),
      QuinnClient.send q d = (.ok (), []) ∧ QuinnClient.receive r = (.ok [], [])) ∧
    (∀ (q r : WebTransportClient) (d : List Nat),
      WebTransportClient.send q d = (.ok (), []) ∧
      WebTransportClient.receive r = (.ok [], [])) := by
  refine ⟨?_, fun q r d => ⟨rfl, rfl⟩, fun q r d => ⟨rfl, rfl⟩⟩
  refine ⟨{ sA with outgoing := [.binary data] }, ?_, ?_⟩
  · simp [WebSocketClient.send, wsStreamSend, herr, hout]
  · simp [WebSocketClient.receive, wsStreamNext, deliver, WsMessage.into_data]

/-- Spot check of roundtrip_amended: the bytes of the scenario message
round-trip through a connected stream pair, and the stub pair yields
nothing. -/
theorem roundtrip_amended_spot :
    (∃ sA2, WebSocketClient.send ⟨⟨11, [], [], none⟩⟩ [72, 101, 108, 108, 111] =
        (.ok (), ⟨sA2⟩) ∧
      (WebSocketClient.receive ⟨deliver sA2 ⟨12, [], [], none⟩⟩).1 =
        .ok [72, 101, 108, 108, 111]) ∧
    (∀ (q r : QuinnClient) (d : List Nat),
      QuinnClient.send q d = (.ok (), []) ∧ QuinnClient.receive r = (.ok [], [])) ∧
    (∀ (q r : WebTransportClient) (d : List Nat),
      WebTransportClient.send q d = (.ok (), []) ∧
      WebTransportClient.receive r = (.ok [], [])) :=
  roundtrip_amended ⟨11, [], [], none⟩ ⟨12, [], [], none⟩
    [72, 101, 108, 108, 111] rfl rfl

/-- C7: each adapter instance holds the one connection resource set up at
construction: stream send and receive keep operating on the stream of the
same identity and the data-channel operations keep the same peer
connection, no operation replacing the resource; stream connect stores
exactly the stream of its one handshake, and stream listen accepts exactly
one peer — its trace is one bind, one accept and one handshake — storing
exactly that peer's stream. -/
theorem single_connection_resource (c : WebSocketClient) (w : WebRTCClient)
    (env : WsEnv) (addr : String) (data : List Nat) :
    ((WebSocketClient.send c data).2.socket.id = c.socket.id) ∧
    ((WebSocketClient.receive c).2.socket.id = c.socket.id) ∧
    ((WebRTCClient.send w data).2.peer_connection = w.peer_connection) ∧
    (∀ r, WebRTCClient.receive w = some r → r.2.peer_connection = w.peer_connection) ∧
    (∀ c2 acts, WebSocketClient.connect env addr = (.ok c2, acts) →
      ∃ url, env.parseUrl addr = .ok url ∧ env.connectAsync url = .ok c2.socket) ∧
    (∀ c2 acts, WebSocketClient.listen env addr = (.ok c2, acts) →
      ∃ l st, env.bindTcp addr = .ok l ∧ env.acceptTcp l = .ok st ∧
        env.acceptAsync st = .ok c2.socket ∧
        acts = [.bindTcp addr, .acceptTcp l, .wsAccept st]) := by
  refine ⟨?_, ?_, ?_, ?_, ?_, ?_⟩
  · rcases h : c.socket.sendErr with _ | e <;>
      simp [WebSocketClient.send, wsStreamSend, h]
  · rcases h : c.socket.incoming with _ | ⟨_ | _, _⟩ <;>
      simp [WebSocketClient.receive, wsStreamNext, h]
  · rcases h : w.data_channel with _ | ch
    · simp [WebRTCClient.send, h]
    · rcases h2 : ch.sendErr with _ | e <;> simp [WebRTCClient.send, h, h2]
  · intro r hr
    rcases h : w.data_channel with _ | ch
    · simp [WebRTCClient.receive, h] at hr
      simp [← hr]
    · rcases h2 : ch.incoming with _ | ⟨item, rest⟩
      · simp [WebRTCClient.receive, h, h2] at hr
      · rcases item with e | m
        · simp [WebRTCClient.receive, h, h2] at hr
          simp [← hr]
        · rcases m with d | s <;>
            · simp [WebRTCClient.receive, h, h2] at hr
              simp [← hr]
  · intro c2 acts h
    rcases hp : env.parseUrl addr with e | url
    · simp [WebSocketClient.connect, hp] at h
    · rcases hc : env.connectAsync url with e | ws
      · simp [WebSocketClient.connect, hp, hc] at h
      · refine ⟨url, rfl, ?_⟩
        simp [WebSocketClient.connect, hp, hc] at h
        simp [hc, ← h.1]
  · intro c2 acts h
    rcases hb : env.bindTcp addr with e | l
    · simp [WebSocketClient.listen, hb] at h
    · rcases ha : env.acceptTcp l with e | st
      · simp [WebSocketClient.listen, hb, ha] at h
      · rcases hw : env.acceptAsync st with e | ws
        · simp [WebSocketClient.listen, hb, ha, hw] at h
        · refine ⟨l, st, ?_, ?_, ?_, ?_⟩
          · simp [hb]
          · simp [ha]
          · simp [WebSocketClient.listen, hb, ha, hw] at h
            simp [hw, ← h.1]
          · simp [WebSocketClient.listen, hb, ha, hw] at h
            simp [← h.2]

/-- Spot check of single_connection_resource: the stream identity survives
a send and a receive, and a successful listen on the concrete environment
stores the stream of its single accepted peer. -/
theorem single_connection_resource_spot :
    ((WebSocketClient.send ⟨⟨3, [], [], none⟩⟩ [1]).2.socket.id = 3) ∧
    ((WebSocketClient.receive ⟨⟨3, [], [], none⟩⟩).2.socket.id = 3) ∧
    (∃ l st, wsTestEnv.bindTcp "127.0.0.1:8080" = .ok l ∧
      wsTestEnv.acceptTcp l = .ok st ∧
      wsTestEnv.acceptAsync st = .ok (⟨8, [], [], none⟩ : WsStream) ∧
      [IOAct.bindTcp "127.0.0.1:8080", .acceptTcp 6, .wsAccept 7] =
        [.bindTcp "127.0.0.1:8080", .acceptTcp l, .wsAccept st]) := by
  refine ⟨?_, ?_, ?_⟩
  · exact (single_connection_resource ⟨⟨3, [], [], none⟩⟩ ⟨0, none⟩ wsTestEnv
      "127.0.0.1:8080" [1]).1
  · exact (single_connection_resource ⟨⟨3, [], [], none⟩⟩ ⟨0, none⟩ wsTestEnv
      "127.0.0.1:8080" [1]).2.1
  · exact (single_connection_resource ⟨⟨3, [], [], none⟩⟩ ⟨0, none⟩ wsTestEnv
      "127.0.0.1:8080" [1]).2.2.2.2.2 ⟨⟨8, [], [], none⟩⟩
      [.bindTcp "127.0.0.1:8080", .acceptTcp 6, .wsAccept 7] (by decide)

/-- An interleaving with an exhausted left side is the right side. -/
theorem isMerge_nil_left (ys zs : List Ev) (h : isMerge [] ys zs = true) :
    zs = ys := by
  induction zs generalizing ys with
  | nil =>
    simp [isMerge] at h
    simp [h]
  | cons z zs2 ih =>
    match ys with
    | [] => simp [isMerge] at h
    | y :: ys2 =>
      simp [isMerge] at h
      rw [ih ys2 h.2, h.1]

/-- While a task holds the lock, a valid interleaving must schedule the
whole rest of that task's critical section — its remaining writes and its
release — before the other task's pending acquisition can run. -/
theorem isMerge_critical_section (t u : Bool) (p : List Nat) (ys2 zs : List Ev)
    (hm : isMerge (p.map (Ev.write t) ++ [Ev.rel t]) (Ev.acq u :: ys2) zs = true)
    (hv : (lockRun (some t) zs).isSome) :
    zs = (p.map (Ev.write t) ++ [Ev.rel t]) ++ (Ev.acq u :: ys2) := by
  induction p generalizing zs with
  | nil =>
    match zs with
    | [] => simp [isMerge] at hm
    | z :: zs2 =>
      simp [isMerge] at hm
      rcases hm with ⟨hz, hm2⟩ | ⟨hz, hm2⟩
      · rw [isMerge_nil_left _ _ hm2, ← hz]
        simp
      · rw [← hz] at hv
        simp [lockRun, lockStep] at hv
  | cons b p ih =>
    match zs with
    | [] => simp [isMerge] at hm
    | z :: zs2 =>
      simp [isMerge] at hm
      rcases hm with ⟨hz, hm2⟩ | ⟨hz, hm2⟩
      · have hv2 : (lockRun (some t) zs2).isSome := by
          rw [← hz] at hv
          simpa [lockRun, lockStep] using hv
        rw [ih zs2 hm2 hv2, ← hz]
        simp
      · rw [← hz] at hv
        simp [lockRun, lockStep] at hv

/-- Interleaving is symmetric in its two inputs. -/
theorem isMerge_comm (xs ys zs : List Ev) : isMerge xs ys zs = isMerge ys xs zs := by
  induction zs generalizing xs ys with
  | nil => simp [isMerge, Bool.and_comm]
  | cons z zs2 ih =>
    cases xs with
    | nil =>
      cases ys with
      | nil => simp [isMerge]
      | cons y ys2 => simp [isMerge, ih]
    | cons x xs2 =>
      cases ys with
      | nil => simp [isMerge, ih]
      | cons y ys2 =>
        simp only [isMerge]
        rw [ih xs2 (y :: ys2), ih (x :: xs2) ys2, Bool.or_comm]

/-- A lock-respecting interleaving of two send calls is one of the two
calls run to completion followed by the other: the lock serializes them. -/
theorem merge_valid_sequential (p1 p2 : List Nat) (zs : List Ev)
    (hm : isMerge (sendProg false p1) (sendProg true p2) zs = true)
    (hv : (lockRun none zs).isSome) :
    zs = sendProg false p1 ++ sendProg true p2 ∨
    zs = sendProg true p2 ++ sendProg false p1 := by
  match zs with
  | [] => simp [isMerge, sendProg] at hm
  | z :: zs2 =>
    simp only [sendProg, isMerge, Bool.or_eq_true, Bool.and_eq_true, beq_iff_eq] at hm
    rcases hm with ⟨hz, hm2⟩ | ⟨hz, hm2⟩
    · left
      have hv2 : (lockRun (some false) zs2).isSome := by
        rw [← hz] at hv
        simpa [lockRun, lockStep] using hv
      rw [isMerge_critical_section false true p1
        (p2.map (Ev.write true) ++ [Ev.rel true]) zs2 hm2 hv2, ← hz]
      simp [sendProg]
    · right
      rw [isMerge_comm] at hm2
      have hv2 : (lockRun (some true) zs2).isSome := by
        rw [← hz] at hv
        simpa [lockRun, lockStep] using hv
      rw [isMerge_critical_section true false p2
        (p1.map (Ev.write false) ++ [Ev.rel false]) zs2 hm2 hv2, ← hz]
      simp [sendProg]

/-- The wire record of a bare write sequence is the payload, in order. -/
theorem wireWrites_writes (t : Bool) (p : List Nat) :
    wireWrites (p.map (Ev.write t)) = p.map fun b => (t, b) := by
  induction p with
  | nil => rfl
  | cons b p ih =>
    simp only [wireWrites, List.map_cons, List.filterMap_cons] at ih ⊢
    rw [ih]

/-- The wire record of one whole send call is exactly its payload. -/
theorem wireWrites_sendProg (t : Bool) (p : List Nat) :
    wireWrites (sendProg t p) = p.map fun b => (t, b) := by
  have h := wireWrites_writes t p
  simp only [wireWrites, List.filterMap_cons, List.filterMap_append] at h ⊢
  simp [sendProg, List.filterMap_cons, List.filterMap_append, h]

/-- Concatenation of traces concatenates their wire records. -/
theorem wireWrites_append (xs ys : List Ev) :
    wireWrites (xs ++ ys) = wireWrites xs ++ wireWrites ys := by
  simp [wireWrites, List.filterMap_append]

/-- C8: every lock-respecting interleaving of two concurrent send calls on
the same stream instance — each acquiring the exclusive write lock for the
duration of its one I/O call — leaves the two payloads contiguous on the
wire, one whole payload before the other, never interleaved. -/
theorem websocket_concurrent_sends_not_interleaved (p1 p2 : List Nat) (zs : List Ev)
    (hm : isMerge (sendProg false p1) (sendProg true p2) zs = true)
    (hv : (lockRun none zs).isSome) :
    wireWrites zs = (p1.map fun b => (false, b)) ++ (p2.map fun b => (true, b)) ∨
    wireWrites zs = (p2.map fun b => (true, b)) ++ (p1.map fun b => (false, b)) := by
  rcases merge_valid_sequential p1 p2 zs hm hv with h | h
  · left
    rw [h, wireWrites_append, wireWrites_sendProg, wireWrites_sendProg]
  · right
    rw [h, wireWrites_append, wireWrites_sendProg, wireWrites_sendProg]

/-- Spot check of websocket_concurrent_sends_not_interleaved on a concrete
serialized trace of two send calls. -/
theorem websocket_concurrent_sends_not_interleaved_spot :
    wireWrites (sendProg false [1, 2] ++ sendProg true [3]) =
      [(false, 1), (false, 2)] ++ [(true, 3)] ∨
    wireWrites (sendProg false [1, 2] ++ sendProg true [3]) =
      [(true, 3)] ++ [(false, 1), (false, 2)] :=
  websocket_concurrent_sends_not_interleaved [1, 2] [3]
    (sendProg false [1, 2] ++ sendProg true [3]) (by decide) (by decide)
